import Mathlib

/-!
# Verification of the SGU Story Weaver core logic

Shallow embedding of `app.py` (StoryMaker repository): credential
resolution, model selection, prompt assembly, generation-response
normalization, and outcome classification.  External effects (the
Streamlit UI, the Gemini API, the process environment, the clock) are
modelled explicitly: UI calls become values of `UiMsg`, the provider
call becomes an `Except`-valued parameter, and the clock becomes a `Tm`
record.  Attribute probing (`hasattr`, `getattr(..., None)`) on provider
objects becomes `Option` fields, and Python truthiness of strings /
lists / objects becomes explicit truthiness functions.
-/

namespace SGUApp

/-- Python string truthiness for an optional string attribute:
`None` and `""` are falsy, everything else truthy. -/
def truthyStr : Option String → Bool
  | none => false
  | some s => !(s == "")

/-- A part of a Gemini response.  `hasattr(part, 'text')` is modelled by
the `text` field being `some`. -/
structure Part where
  text : Option String
deriving DecidableEq, Repr

/-- A provider block reason (e.g. `SAFETY`); the code surfaces its `.name`. -/
structure BlockReason where
  name : String
deriving DecidableEq, Repr

/-- Prompt feedback attached to a response.  `hasattr(feedback,
'block_reason')` is modelled by the `block_reason` field being `some`. -/
structure Feedback where
  block_reason : Option BlockReason
deriving DecidableEq, Repr

/-- A Gemini generation response, as probed by `generate_sgu_story`:
`parts` (`hasattr(response, 'parts')` ⇒ `some`), a direct `text` field
(`hasattr(response, 'text')` ⇒ `some`), and `prompt_feedback`
(`getattr(response, 'prompt_feedback', None)`). -/
structure Response where
  parts : Option (List Part)
  text : Option String
  prompt_feedback : Option Feedback
deriving DecidableEq, Repr

/-- Python truthiness of the optional `parts` attribute: absent or empty
list is falsy. -/
def partsTruthy : Option (List Part) → Bool
  | none => false
  | some l => !l.isEmpty

/-- `"".join(part.text for part in parts if hasattr(part, 'text'))`:
concatenate, in sequence order, the text of every part carrying text. -/
def joinPartTexts (parts : List Part) : String :=
  String.join (parts.filterMap Part.text)

/-- Response normalization from `generate_sgu_story` (app.py lines
194-206): first a truthy `parts` attribute, else a truthy direct `text`
attribute, else no text. -/
def extractStoryText (r : Response) : Option String :=
  if partsTruthy r.parts then
    some (joinPartTexts (r.parts.getD []))
  else if truthyStr r.text then
    some (r.text.getD "")
  else
    none

/-- The synthetic response of the spec example: parts `["Hello ", "world"]`,
each carrying text, no direct text field, no feedback. -/
def helloResponse : Response :=
  { parts := some [{ text := some "Hello " }, { text := some "world" }],
    text := none,
    prompt_feedback := none }

/-- A broken-down local time, the input of `time.strftime`. -/
structure Tm where
  year : Nat
  month : Nat
  day : Nat
  hour : Nat
  minute : Nat
  second : Nat
deriving DecidableEq, Repr

/-- Two zero-padded decimal digits, the `%m`, `%d`, `%H`, `%M`, `%S`
fields of `strftime` (modelled from the C library contract; fields are
taken modulo 100 as the format is fixed-width). -/
def pad2 (n : Nat) : List Char :=
  [Nat.digitChar (n / 10 % 10), Nat.digitChar (n % 10)]

/-- Four zero-padded decimal digits, the `%Y` field of `strftime` for
years below 10000 (modelled from the C library contract). -/
def pad4 (n : Nat) : List Char :=
  [Nat.digitChar (n / 1000 % 10), Nat.digitChar (n / 100 % 10),
   Nat.digitChar (n / 10 % 10), Nat.digitChar (n % 10)]

/-- `time.strftime('%Y%m%d_%H%M%S')` applied to a broken-down time. -/
def strftimeTs (t : Tm) : String :=
  String.mk (pad4 t.year ++ pad2 t.month ++ pad2 t.day ++ ['_'] ++
    pad2 t.hour ++ pad2 t.minute ++ pad2 t.second)

/-- Decides whether a string matches the regular expression
`sgu_story_\d\x7b8\x7d_\d\x7b6\x7d\.txt` (anchored at both ends):
characters 0-9 are `sgu_story_`, 10-17 are digits, 18 is `_`,
19-24 are digits, 25-28 are `.txt`, and the length is exactly 29. -/
def matchesSguPattern (s : String) : Bool :=
  s.data.length == 29 &&
  s.data.take 10 == "sgu_story_".data &&
  ((s.data.drop 10).take 8).all Char.isDigit &&
  (s.data.drop 18).take 1 == ['_'] &&
  ((s.data.drop 19).take 6).all Char.isDigit &&
  s.data.drop 25 == ".txt".data

/-- One user-visible Streamlit effect emitted by the app. -/
inductive UiMsg where
  | errorMsg (s : String)
  | infoMsg (s : String)
  | warningMsg (s : String)
  | markdown (s : String)
  | subheader (s : String)
  | download (data fileName mimeType : String)
deriving DecidableEq, Repr

/-- Is the effect a download offer? -/
def UiMsg.isDownload : UiMsg → Bool
  | .download _ _ _ => true
  | _ => false

/-- Is the effect a story rendering (markdown body or subheader)? -/
def UiMsg.isRender : UiMsg → Bool
  | .markdown _ => true
  | .subheader _ => true
  | _ => false

/-- Python object truthiness of the optional feedback value: `None` is
falsy, a feedback object is truthy. -/
def feedbackTruthy : Option Feedback → Bool
  | none => false
  | some _ => true

/-- `hasattr(feedback, 'block_reason')` on an optional feedback value. -/
def hasBlockReason : Option Feedback → Bool
  | none => false
  | some f => f.block_reason.isSome

/-- `feedback.block_reason.name`, defined on the branch where the
block reason is present (arbitrary `""` elsewhere, never reached). -/
def blockReasonName : Option Feedback → String
  | some f =>
    match f.block_reason with
    | some r => r.name
    | none => ""
  | none => ""

/-- `f"sgu_story_\x7btimestamp\x7d.txt"` from `main` (app.py line 273). -/
def sguFileName (t : Tm) : String :=
  "sgu_story_" ++ strftimeTs t ++ ".txt"

/-- Outcome classification from `main` (app.py lines 260-288): the
`if story_text / elif feedback and hasattr(feedback, 'block_reason') /
elif not story_text and not feedback / else` chain, with each Streamlit
call recorded as a `UiMsg`. -/
def classifyOutcome (story_text : Option String) (feedback : Option Feedback)
    (t : Tm) : List UiMsg :=
  if truthyStr story_text then
    [UiMsg.markdown "---",
     UiMsg.subheader "📜 Your SGU Story:",
     UiMsg.markdown (story_text.getD ""),
     UiMsg.download (story_text.getD "") (sguFileName t) "text/plain"]
  else if feedbackTruthy feedback && hasBlockReason feedback then
    [UiMsg.errorMsg "🚫 Story generation was blocked due to safety settings.",
     UiMsg.infoMsg ("Reason: \x60" ++ blockReasonName feedback ++ "\x60"),
     UiMsg.warningMsg "Please try rephrasing your prompt to be clearer and avoid sensitive topics."]
  else if !truthyStr story_text && !feedbackTruthy feedback then
    []
  else
    [UiMsg.warningMsg "⚠️ No story was generated. This might be due to the prompt or API issues. Please try again or rephrase."]

/-- C1: Response normalization follows the three-step order: non-empty
parts sequence ⇒ concatenation in order of the texts of the parts that
carry text; else non-empty direct text field ⇒ that field; else absent.
The synthetic `helloResponse` yields `"Hello world"`. -/
theorem extract_normalization_order :
    (∀ (r : Response) (l : List Part), r.parts = some l → l ≠ [] →
      extractStoryText r = some (String.join (l.filterMap Part.text)))
    ∧ (∀ (r : Response) (t : String), partsTruthy r.parts = false →
      r.text = some t → t ≠ "" → extractStoryText r = some t)
    ∧ (∀ r : Response, partsTruthy r.parts = false → truthyStr r.text = false →
      extractStoryText r = none)
    ∧ extractStoryText helloResponse = some "Hello world" := by
  refine ⟨?_, ?_, ?_, ?_⟩
  · intro r l hl hne
    simp [extractStoryText, partsTruthy, hl, List.isEmpty_iff, hne, joinPartTexts]
  · intro r t hp ht hne
    simp [extractStoryText, hp, truthyStr, ht, hne]
  · intro r hp ht
    simp [extractStoryText, hp, ht]
  · rfl

/-- Witness for C1: the first branch applied to the concrete `helloResponse`. -/
theorem extract_normalization_order_witness :
    extractStoryText helloResponse =
      some (String.join ([Part.mk (some "Hello "), Part.mk (some "world")].filterMap Part.text)) :=
  extract_normalization_order.1 helloResponse
    [Part.mk (some "Hello "), Part.mk (some "world")] rfl (by decide)

/-- C2: outcome classification picks exactly one of four outcomes, in
priority order: (1) truthy text ⇒ render plus download; (2) text absent,
feedback present with a block reason ⇒ blocked-by-safety messages naming
the reason; (3) text absent, feedback absent ⇒ no further output;
(4) text absent, feedback present without a block reason ⇒ generic
no-story warning. -/
theorem outcome_classification_four_way :
    (∀ (s : String) (fb : Option Feedback) (t : Tm), s ≠ "" →
      classifyOutcome (some s) fb t =
        [UiMsg.markdown "---",
         UiMsg.subheader "📜 Your SGU Story:",
         UiMsg.markdown s,
         UiMsg.download s (sguFileName t) "text/plain"])
    ∧ (∀ (story : Option String) (f : Feedback) (r : BlockReason) (t : Tm),
      truthyStr story = false → f.block_reason = some r →
      classifyOutcome story (some f) t =
        [UiMsg.errorMsg "🚫 Story generation was blocked due to safety settings.",
         UiMsg.infoMsg ("Reason: \x60" ++ r.name ++ "\x60"),
         UiMsg.warningMsg "Please try rephrasing your prompt to be clearer and avoid sensitive topics."])
    ∧ (∀ (story : Option String) (t : Tm), truthyStr story = false →
      classifyOutcome story none t = [])
    ∧ (∀ (story : Option String) (f : Feedback) (t : Tm),
      truthyStr story = false → f.block_reason = none →
      classifyOutcome story (some f) t =
        [UiMsg.warningMsg "⚠️ No story was generated. This might be due to the prompt or API issues. Please try again or rephrase."]) := by
  refine ⟨?_, ?_, ?_, ?_⟩
  · intro s fb t hs
    simp [classifyOutcome, truthyStr, hs]
  · intro story f r t hst hf
    simp [classifyOutcome, hst, feedbackTruthy, hasBlockReason, hf, blockReasonName]
  · intro story t hst
    simp [classifyOutcome, hst, feedbackTruthy]
  · intro story f t hst hf
    simp [classifyOutcome, hst, feedbackTruthy, hasBlockReason, hf]

/-- Witness for C2: branch 2 at a concrete blocked result. -/
theorem outcome_classification_four_way_witness :
    classifyOutcome none (some { block_reason := some { name := "OTHER" } })
        { year := 2025, month := 1, day := 2, hour := 3, minute := 4, second := 5 } =
      [UiMsg.errorMsg "🚫 Story generation was blocked due to safety settings.",
       UiMsg.infoMsg ("Reason: \x60" ++ "OTHER" ++ "\x60"),
       UiMsg.warningMsg "Please try rephrasing your prompt to be clearer and avoid sensitive topics."] :=
  outcome_classification_four_way.2.1 none { block_reason := some { name := "OTHER" } }
    { name := "OTHER" }
    { year := 2025, month := 1, day := 2, hour := 3, minute := 4, second := 5 }
    rfl rfl

/-- C3: a response with no parts, no text field, and feedback carrying
block reason `"SAFETY"` extracts no text, and classification takes the
blocked branch, surfacing exactly the string `"SAFETY"`. -/
theorem safety_block_surfaces_reason (t : Tm) :
    extractStoryText
        { parts := none, text := none,
          prompt_feedback := some { block_reason := some { name := "SAFETY" } } } = none
    ∧ classifyOutcome none (some { block_reason := some { name := "SAFETY" } }) t =
      [UiMsg.errorMsg "🚫 Story generation was blocked due to safety settings.",
       UiMsg.infoMsg "Reason: \x60SAFETY\x60",
       UiMsg.warningMsg "Please try rephrasing your prompt to be clearer and avoid sensitive topics."] := by
  exact ⟨rfl, rfl⟩

/-- Witness for C3 at a concrete clock value. -/
theorem safety_block_surfaces_reason_witness :
    extractStoryText
        { parts := none, text := none,
          prompt_feedback := some { block_reason := some { name := "SAFETY" } } } = none
    ∧ classifyOutcome none (some { block_reason := some { name := "SAFETY" } })
        { year := 2026, month := 6, day := 7, hour := 8, minute := 9, second := 10 } =
      [UiMsg.errorMsg "🚫 Story generation was blocked due to safety settings.",
       UiMsg.infoMsg "Reason: \x60SAFETY\x60",
       UiMsg.warningMsg "Please try rephrasing your prompt to be clearer and avoid sensitive topics."] :=
  safety_block_surfaces_reason
    { year := 2026, month := 6, day := 7, hour := 8, minute := 9, second := 10 }

/-- `Nat.digitChar` of a value below ten is a decimal digit character. -/
theorem digitChar_isDigit {n : Nat} (h : n < 10) :
    (Nat.digitChar n).isDigit = true := by
  interval_cases n <;> decide

/-- `Nat.digitChar` of anything reduced modulo ten is a digit character. -/
theorem digitChar_mod_isDigit (n : Nat) :
    (Nat.digitChar (n % 10)).isDigit = true :=
  digitChar_isDigit (Nat.mod_lt _ (by decide))

/-- The character data of the produced file name, fully unfolded. -/
theorem sguFileName_data (t : Tm) :
    (sguFileName t).data =
      's' :: 'g' :: 'u' :: '_' :: 's' :: 't' :: 'o' :: 'r' :: 'y' :: '_' ::
      Nat.digitChar (t.year / 1000 % 10) :: Nat.digitChar (t.year / 100 % 10) ::
      Nat.digitChar (t.year / 10 % 10) :: Nat.digitChar (t.year % 10) ::
      Nat.digitChar (t.month / 10 % 10) :: Nat.digitChar (t.month % 10) ::
      Nat.digitChar (t.day / 10 % 10) :: Nat.digitChar (t.day % 10) :: '_' ::
      Nat.digitChar (t.hour / 10 % 10) :: Nat.digitChar (t.hour % 10) ::
      Nat.digitChar (t.minute / 10 % 10) :: Nat.digitChar (t.minute % 10) ::
      Nat.digitChar (t.second / 10 % 10) :: Nat.digitChar (t.second % 10) ::
      '.' :: 't' :: 'x' :: 't' :: [] := by
  simp [sguFileName, strftimeTs, pad4, pad2, String.data_append]

/-- Every produced file name matches `sgu_story_\d\x7b8\x7d_\d\x7b6\x7d\.txt`. -/
theorem sguFileName_matches (t : Tm) :
    matchesSguPattern (sguFileName t) = true := by
  simp only [matchesSguPattern, sguFileName_data]
  simp [List.take, List.drop, digitChar_mod_isDigit]

/-- C8: for every successful (truthy) text result, the download offer
carries exactly the generated text as content, media type `text/plain`,
and a file name matching `sgu_story_\d\x7b8\x7d_\d\x7b6\x7d\.txt`. -/
theorem download_artifact_properties (s : String) (fb : Option Feedback)
    (t : Tm) (hs : s ≠ "") :
    classifyOutcome (some s) fb t =
      [UiMsg.markdown "---",
       UiMsg.subheader "📜 Your SGU Story:",
       UiMsg.markdown s,
       UiMsg.download s (sguFileName t) "text/plain"]
    ∧ matchesSguPattern (sguFileName t) = true := by
  constructor
  · simp [classifyOutcome, truthyStr, hs]
  · exact sguFileName_matches t

/-- Witness for C8 at a concrete story and clock value. -/
theorem download_artifact_properties_witness :
    classifyOutcome (some "X") none
        { year := 2025, month := 10, day := 12, hour := 9, minute := 30, second := 59 } =
      [UiMsg.markdown "---",
       UiMsg.subheader "📜 Your SGU Story:",
       UiMsg.markdown "X",
       UiMsg.download "X"
         (sguFileName { year := 2025, month := 10, day := 12, hour := 9, minute := 30, second := 59 })
         "text/plain"]
    ∧ matchesSguPattern
        (sguFileName { year := 2025, month := 10, day := 12, hour := 9, minute := 30, second := 59 }) = true :=
  download_artifact_properties "X" none
    { year := 2025, month := 10, day := 12, hour := 9, minute := 30, second := 59 }
    (by decide)

/-- C10: with a non-empty parts sequence in which no part carries text,
extraction returns the empty string — never consulting the direct text
field, whatever it holds — and classification, testing presence by
truthiness, treats that empty string as absent text: no story rendering
and no download offer is ever emitted for it. -/
theorem empty_parts_yield_empty_string (l : List Part) (tf : Option String)
    (fb : Option Feedback) (t : Tm) (hne : l ≠ [])
    (hnt : ∀ p ∈ l, p.text = none) :
    extractStoryText { parts := some l, text := tf, prompt_feedback := fb } = some ""
    ∧ truthyStr (some "") = false
    ∧ (classifyOutcome (some "") fb t).all
        (fun m => !m.isDownload && !m.isRender) = true := by
  refine ⟨?_, rfl, ?_⟩
  · have hfm : l.filterMap Part.text = [] := by
      rw [List.filterMap_eq_nil_iff]
      exact hnt
    simp [extractStoryText, partsTruthy, List.isEmpty_iff, hne, joinPartTexts, hfm,
      String.join]
  · rcases fb with _ | ⟨_ | r⟩ <;>
      simp [classifyOutcome, truthyStr, feedbackTruthy, hasBlockReason,
        UiMsg.isDownload, UiMsg.isRender]

/-- Witness for C10: one textless part, a non-empty direct text field
that must be ignored, and feedback without a block reason. -/
theorem empty_parts_yield_empty_string_witness :
    extractStoryText
        { parts := some [{ text := none }], text := some "BACKUP",
          prompt_feedback := some { block_reason := none } } = some ""
    ∧ truthyStr (some "") = false
    ∧ (classifyOutcome (some "") (some { block_reason := none })
          { year := 2025, month := 1, day := 2, hour := 3, minute := 4, second := 5 }).all
        (fun m => !m.isDownload && !m.isRender) = true :=
  empty_parts_yield_empty_string [{ text := none }] (some "BACKUP")
    (some { block_reason := none })
    { year := 2025, month := 1, day := 2, hour := 3, minute := 4, second := 5 }
    (by decide) (by decide)

/-- The fixed campus-context block `SGU_CONTEXT` (app.py lines 106-138). -/
def SGU_CONTEXT : String := "
## SGU Campus Context 

**Sanjay Ghodawat University (SGU)** is a large, modern State Private University spread over **165 acres** on the **Kolhapur-Sangli Highway, Atigre, Kolhapur**. It\x27s part of the diverse Sanjay Ghodawat Group, bringing a strong industrial connection.

**Key Academic Areas & Schools (likely in distinct buildings/blocks):**
* School of Engineering & Technology (housing departments like Aeronautical, Civil, Computer Science & Engineering (CSE), AI & Machine Learning (AI&ML), Electronics & Communication (E&C))
* School of Computer Applications (BCA, MCA)
* School of Commerce & Management (B.Com, BBA, MBA - including specializations like Business Analytics, Disaster Management)
* School of Physical and Chemical Sciences (Physics - including Space Science/Nano Science, Chemistry)
* School of Life Sciences (Medical Lab Technology, Food Science & Technology, Biotechnology)
* School of Pharmaceutical Science (D.Pharm, B.Pharm, M.Pharm)
* School of Design (B.Des covering Fashion, Product, Interior, Communication, Animation, Game Design)
* School of Media (Journalism & Mass Communication)
* School of Social Science (History, Geography, Political Science, English)
* School of Legal Studies (Law) (BA LLB, BBA LLB, LLB)

**Specific Campus Facilities & Landmarks:**
* **Central Library:** A key hub for studying and resources. 
* **Hostels:** Separate residential facilities for students.
* **Sports Facilities:** Includes a **Stadium**, **Playgrounds**, courts, and a **Swimming Pool**. 
* **Advanced Laboratories:** Sophisticated labs for various science and tech fields.
* **Specialized Centers:** High-End Simulation & Robotic Lab, Industry 4.0 C4i4 Lab, Center for Space and Atmospheric Science (CSAS), TATA Technologies Centre, BOSCH Mechatronics Lab.
* **Auditorium:** For major events, gatherings, and maybe celebrity visits.
* **Food Court / Canteen:** Social spots for meals and breaks.
* **SGU Music Academy:** A dedicated place for musical activities.
* **Star Local Mart:** An on-campus convenience store.
* **Well-Equipped Classrooms & Sophisticated Computer Labs.**
* **Green Spaces:** Gardens and pathways. 
* **Parking Areas.**

**Campus Vibe:** Focuses on **Project & Design Based Learning**, strong **Industry Connections** (internships, placements with recruiters like TCS, Infosys, Capgemini, etc.), and aims for overall student development and character building. Has global partnerships (Study Abroad programs with universities in USA, UK, Australia) and hosts events like convocations and potentially fests or celebrity interactions.
"

/-- The template text before the campus context. -/
def promptHead : String := "
You are a creative storyteller. Write a short, engaging story (around 250–400 words)
that takes place entirely on the campus of Sanjay Ghodawat University (SGU), Kolhapur.
You should explain whole story in simple english so that any age group can read the story easily.

**SGU Campus Details:**
"

/-- The template text between the campus context and the user idea. -/
def promptMid : String := "

**User\x27s Story Idea:**
"

/-- The template text after the user idea. -/
def promptTail : String := "

**Instructions:**
1. Make the story feel authentic to the SGU campus experience.
2. Mention at least 2-3 specific SGU locations (e.g., Central Library, Food Court, School of Technology building, Stadium, Star Local Mart, Robotic Lab).
3. Ensure the story is appropriate for all audiences and positive in tone.
4. Generate *only* the story text, using clear paragraphs. Do not add a title.
5. Please make sure that story is easy to read by any age group.

**Story:**
"

/-- Prompt assembly from `generate_sgu_story` (app.py lines 149-168):
the f-string interpolating `SGU_CONTEXT` and the user prompt into the
fixed instruction template. -/
def full_prompt (user_prompt : String) : String :=
  s!"
You are a creative storyteller. Write a short, engaging story (around 250–400 words)
that takes place entirely on the campus of Sanjay Ghodawat University (SGU), Kolhapur.
You should explain whole story in simple english so that any age group can read the story easily.

**SGU Campus Details:**
{SGU_CONTEXT}

**User\x27s Story Idea:**
{user_prompt}

**Instructions:**
1. Make the story feel authentic to the SGU campus experience.
2. Mention at least 2-3 specific SGU locations (e.g., Central Library, Food Court, School of Technology building, Stadium, Star Local Mart, Robotic Lab).
3. Ensure the story is appropriate for all audiences and positive in tone.
4. Generate *only* the story text, using clear paragraphs. Do not add a title.
5. Please make sure that story is easy to read by any age group.

**Story:**
"

/-- Python `str.strip()`: remove leading and trailing whitespace
characters (modelled from the Python library contract over ASCII
whitespace). -/
def pyStrip (s : String) : String :=
  String.mk (((s.data.dropWhile Char.isWhitespace).reverse.dropWhile
    Char.isWhitespace).reverse)

/-- C4: for every trimmed user input of at most 500 characters, prompt
assembly is a pure deterministic concatenation embedding the user input
verbatim and the full fixed campus-context string verbatim inside the
fixed instruction template, with no escaping or sanitization: both the
string-level and the character-level decompositions hold exactly. -/
theorem prompt_assembly_verbatim (u : String) (h1 : pyStrip u = u)
    (h2 : u.length ≤ 500) :
    full_prompt u = promptHead ++ SGU_CONTEXT ++ promptMid ++ u ++ promptTail
    ∧ (full_prompt u).data =
      promptHead.data ++ SGU_CONTEXT.data ++ promptMid.data ++ u.data ++
        promptTail.data := by
  have h : full_prompt u =
      promptHead ++ SGU_CONTEXT ++ promptMid ++ u ++ promptTail := rfl
  refine ⟨h, ?_⟩
  rw [h]
  simp [String.data_append]

/-- Witness for C4 at a concrete already-stripped input. -/
theorem prompt_assembly_verbatim_witness :
    full_prompt "A chance encounter at the Star Local Mart" =
      promptHead ++ SGU_CONTEXT ++ promptMid ++
        "A chance encounter at the Star Local Mart" ++ promptTail ∧
    pyStrip "A chance encounter at the Star Local Mart" =
      "A chance encounter at the Star Local Mart" ∧
    ("A chance encounter at the Star Local Mart" : String).length ≤ 500 :=
  ⟨(prompt_assembly_verbatim "A chance encounter at the Star Local Mart"
      (by decide) (by decide)).1, by decide, by decide⟩



/-- The configured primary model name `FREE_GEMINI_MODEL` (app.py line 19). -/
def FREE_GEMINI_MODEL : String := "models/gemini-2.5-flash"

/-- The fallback model name (app.py line 84). -/
def fallback_model : String := "models/gemini-pro"

/-- Metadata of one provider model as returned by `genai.list_models()`. -/
structure ModelInfo where
  name : String
  supported_generation_methods : List String
deriving DecidableEq, Repr

/-- A handle to the selected generative model (`genai.GenerativeModel`). -/
structure ModelHandle where
  name : String
deriving DecidableEq, Repr

/-- Result of `configure_gemini`: a selected model, or a halt
(`st.stop()`) after the no-model error or the configuration error. -/
inductive ConfigResult where
  | selected (m : ModelHandle)
  | haltNoModel (available : List String)
  | haltError (msg : String)
deriving DecidableEq, Repr

/-- Model choice over the list of available model names supporting
content generation (app.py lines 78-95): primary first, then fallback,
else error, `st.json(available_models)` and `st.stop()`. -/
def selectModel (available_models : List String) : ConfigResult :=
  if FREE_GEMINI_MODEL ∈ available_models then
    ConfigResult.selected { name := FREE_GEMINI_MODEL }
  else if fallback_model ∈ available_models then
    ConfigResult.selected { name := fallback_model }
  else
    ConfigResult.haltNoModel available_models

/-- `configure_gemini` (app.py lines 63-99).  The provider listing is a
parameter: `Except.error` models an exception raised while talking to
the provider, carrying the exception message; on success the models
supporting `generateContent` are kept and selection runs. -/
def configure_gemini (listing : Except String (List ModelInfo)) : ConfigResult :=
  match listing with
  | Except.error e =>
      ConfigResult.haltError ("😥 Failed to configure Gemini: " ++ e)
  | Except.ok ms =>
      selectModel ((ms.filter
        (fun m => "generateContent" ∈ m.supported_generation_methods)).map
          ModelInfo.name)

/-- The Streamlit secrets facility: either unavailable (`st` lacks the
attribute, or accessing it raises) or a key-value mapping. -/
inductive SecretsFacility where
  | unavailable
  | available (entries : List (String × String))
deriving DecidableEq, Repr

/-- `"GEMINI_API_KEY" in st.secrets` followed by the read, on the
modelled facility; `none` when the facility is unavailable or the key
is absent. -/
def secretsLookup : SecretsFacility → Option String
  | SecretsFacility.unavailable => none
  | SecretsFacility.available entries =>
      (entries.find? (fun p => p.1 == "GEMINI_API_KEY")).map Prod.snd

/-- Result of `get_api_key`: which source provided the key, or a halt
(`st.error` then `st.stop()`). -/
inductive KeyResult where
  | fromSecrets (key : String)
  | fromEnv (key : String)
  | halt
deriving DecidableEq, Repr

/-- `get_api_key` (app.py lines 22-59): Streamlit secrets first (any
facility failure silently ignored), then the `GEMINI_API_KEY`
environment variable under Python truthiness (an empty value does not
count), else the explanatory error and `st.stop()`. -/
def get_api_key (secrets : SecretsFacility) (env : Option String) : KeyResult :=
  match secretsLookup secrets with
  | some k => KeyResult.fromSecrets k
  | none =>
    match env with
    | some k => if k == "" then KeyResult.halt else KeyResult.fromEnv k
    | none => KeyResult.halt

/-- `generate_sgu_story` (app.py lines 142-212).  The provider call is a
parameter from the assembled prompt to either an exception
(`Except.error`, carrying the exception message) or a response; the
generation and safety settings are fixed constants and do not vary
between calls.  Returns the emitted UI messages together with the
`(story_text, feedback)` pair. -/
def generate_sgu_story (user_prompt : String) (_model : Option ModelHandle)
    (call : String → Except String Response) :
    List UiMsg × Option String × Option Feedback :=
  match _model with
  | none => ([UiMsg.errorMsg "Model not initialized."], none, none)
  | some _ =>
    match call (full_prompt user_prompt) with
    | Except.error e =>
        ([UiMsg.errorMsg ("❌ API Error during generation: " ++ e),
          UiMsg.infoMsg "Check network, API key, or prompt complexity."],
         none, none)
    | Except.ok response =>
        ([], extractStoryText response, response.prompt_feedback)

/-- `disabled=not user_prompt.strip()` on the generate button (app.py
line 250). -/
def buttonDisabled (user_prompt : String) : Bool :=
  pyStrip user_prompt == ""

/-- The submission gate `if clicked and user_prompt.strip():` (app.py
line 255): `some a` means `generate_sgu_story` is invoked with `a` as
its prompt argument, `none` means it is not invoked. -/
def clickGate (clicked : Bool) (user_prompt : String) : Option String :=
  if clicked && !(pyStrip user_prompt == "") then some (pyStrip user_prompt)
  else none


/-- C5: model selection prefers the primary name, then the fallback,
else halts enumerating the available models; a provider failure during
listing halts with an error message. -/
theorem model_selection_priority :
    (∀ available : List String, FREE_GEMINI_MODEL ∈ available →
      selectModel available = ConfigResult.selected { name := FREE_GEMINI_MODEL })
    ∧ (∀ available : List String, FREE_GEMINI_MODEL ∉ available →
      fallback_model ∈ available →
      selectModel available = ConfigResult.selected { name := fallback_model })
    ∧ (∀ available : List String, FREE_GEMINI_MODEL ∉ available →
      fallback_model ∉ available →
      selectModel available = ConfigResult.haltNoModel available)
    ∧ (∀ e : String, configure_gemini (Except.error e) =
      ConfigResult.haltError ("😥 Failed to configure Gemini: " ++ e)) := by
  refine ⟨?_, ?_, ?_, fun e => rfl⟩
  · intro a h
    simp [selectModel, h]
  · intro a h1 h2
    simp [selectModel, h1, h2]
  · intro a h1 h2
    simp [selectModel, h1, h2]

/-- Witness for C5: the fallback is chosen when only it is listed. -/
theorem model_selection_priority_witness :
    selectModel ["models/gemini-pro"] =
      ConfigResult.selected { name := fallback_model } :=
  model_selection_priority.2.1 ["models/gemini-pro"] (by decide) (by decide)

/-- C6: credential resolution reads the secrets facility first; when the
key is absent there (including when the facility is unavailable) the
environment variable is read; when both are absent the process halts.
Exactly one source supplies the key, in that priority. -/
theorem api_key_resolution_priority :
    (∀ (s : SecretsFacility) (env : Option String) (k : String),
      secretsLookup s = some k → get_api_key s env = KeyResult.fromSecrets k)
    ∧ (∀ (s : SecretsFacility) (k : String), secretsLookup s = none →
      k ≠ "" → get_api_key s (some k) = KeyResult.fromEnv k)
    ∧ (∀ s : SecretsFacility, secretsLookup s = none →
      get_api_key s none = KeyResult.halt)
    ∧ secretsLookup SecretsFacility.unavailable = none := by
  refine ⟨?_, ?_, ?_, rfl⟩
  · intro s env k h
    simp [get_api_key, h]
  · intro s k h hk
    simp [get_api_key, h, hk]
  · intro s h
    simp [get_api_key, h]

/-- Witness for C6: a populated secrets facility wins over a set
environment variable. -/
theorem api_key_resolution_priority_witness :
    get_api_key (SecretsFacility.available [("GEMINI_API_KEY", "sk-1")])
      (some "sk-2") = KeyResult.fromSecrets "sk-1" :=
  api_key_resolution_priority.1
    (SecretsFacility.available [("GEMINI_API_KEY", "sk-1")]) (some "sk-2")
    "sk-1" (by decide)

/-- C7: an exception raised by the generation call is caught and
reported with its message, and the step returns (absent text, absent
feedback) — distinct from a safety block, which returns (absent text,
present feedback carrying a block reason); the function returns rather
than halting, so the process continues. -/
theorem generation_exception_result (u : String) (m : ModelHandle)
    (e : String) (r : Response) (f : Feedback)
    (hr : r.prompt_feedback = some f) (hb : f.block_reason.isSome = true)
    (ht : extractStoryText r = none) :
    generate_sgu_story u (some m) (fun _ => Except.error e) =
      ([UiMsg.errorMsg ("❌ API Error during generation: " ++ e),
        UiMsg.infoMsg "Check network, API key, or prompt complexity."],
       none, none)
    ∧ generate_sgu_story u (some m) (fun _ => Except.ok r) = ([], none, some f)
    ∧ ((none : Option String), (none : Option Feedback)) ≠ (none, some f) := by
  refine ⟨rfl, ?_, by simp⟩
  simp [generate_sgu_story, ht, hr]

/-- Witness for C7: a concrete network failure next to a concrete
safety-blocked response. -/
theorem generation_exception_result_witness :
    generate_sgu_story "idea" (some { name := "models/gemini-2.5-flash" })
      (fun _ => Except.error "ConnectionError") =
      ([UiMsg.errorMsg ("❌ API Error during generation: " ++ "ConnectionError"),
        UiMsg.infoMsg "Check network, API key, or prompt complexity."],
       none, none) :=
  (generation_exception_result "idea" { name := "models/gemini-2.5-flash" }
    "ConnectionError"
    { parts := none, text := none,
      prompt_feedback := some { block_reason := some { name := "SAFETY" } } }
    { block_reason := some { name := "SAFETY" } }
    rfl rfl rfl).1

/-- C9: an empty or all-whitespace input disables the submit button, and
generation is invoked only when the button was clicked and the stripped
input is non-empty, with the stripped input as the argument; in
particular an all-whitespace input never reaches prompt assembly. -/
theorem empty_input_gating :
    (∀ u : String, (∀ c ∈ u.data, c.isWhitespace = true) →
      buttonDisabled u = true)
    ∧ (∀ (clicked : Bool) (u arg : String), clickGate clicked u = some arg →
      clicked = true ∧ pyStrip u ≠ "" ∧ arg = pyStrip u)
    ∧ (∀ u : String, (∀ c ∈ u.data, c.isWhitespace = true) →
      ∀ clicked : Bool, clickGate clicked u = none) := by
  have hstrip : ∀ u : String, (∀ c ∈ u.data, c.isWhitespace = true) →
      pyStrip u = "" := by
    intro u h
    have h1 : u.data.dropWhile Char.isWhitespace = [] := by
      rw [List.dropWhile_eq_nil_iff]
      exact h
    simp [pyStrip, h1]
  refine ⟨?_, ?_, ?_⟩
  · intro u h
    simp [buttonDisabled, hstrip u h]
  · intro clicked u arg h
    unfold clickGate at h
    split at h
    · rename_i hcond
      rw [Bool.and_eq_true] at hcond
      obtain ⟨hc, hs⟩ := hcond
      injection h with harg
      refine ⟨hc, ?_, harg.symm⟩
      intro hcontra
      rw [hcontra] at hs
      simp at hs
    · exact absurd h (by simp)
  · intro u h clicked
    simp [clickGate, hstrip u h]

/-- Witness for C9: three spaces disable the button and never invoke
generation, and a passing gate hands over the stripped input. -/
theorem empty_input_gating_witness :
    buttonDisabled "   " = true
    ∧ clickGate true "   " = none
    ∧ (true = true ∧ pyStrip "  hi  " ≠ "" ∧ "hi" = pyStrip "  hi  ") :=
  ⟨empty_input_gating.1 "   " (by decide),
   empty_input_gating.2.2 "   " (by decide) true,
   empty_input_gating.2.1 true "  hi  " "hi" (by decide)⟩

end SGUApp
